import Mathlib

/-!
Verification development for the `image-crawler` worker
(`worker/message.py`, `worker/image.py`).

The Python source is shallowly embedded: pure helpers become Lean
functions, the effectful pipeline `process_image` becomes a function
returning its trace of collaborator calls together with a termination
outcome, and the batching publisher's flush loop `AsyncProducer.listen`
becomes a recursive function over the live message queue.  External
collaborators (the rate-limited aiohttp session, PIL, wand, the pykafka
producer, the stats store) are modelled by their outcomes at their call
sites, following their documented contracts.
-/

namespace ImageCrawler

/-! ## JSON values

Messages enqueued by the producer are Python dicts serialized with
`json.dumps`.  We model a message as an ordered association list of
field names to JSON values (Python dict literals preserve insertion
order, and `json.dumps` emits keys in that order). -/

/-- JSON values appearing in the worker's outbound messages: strings,
non-negative integers, `null` (Python `None`), and a flat string-valued
object (the EXIF tag map). -/
inductive JValue where
  | str (s : String)
  | num (n : Nat)
  | null
  | obj (kvs : List (String × String))
  deriving DecidableEq

/-- An outbound message payload: an ordered list of JSON fields. -/
abbrev JMessage := List (String × JValue)

/-! ## Decoded images (PIL collaborator)

`PIL.Image.open` yields an image object.  The pipeline reads its
`size`, `mode`, `info` (presence of an `exif` entry) and `getexif()`
items.  EXIF tag values are modelled as strings. -/

/-- A decoded raster as the pipeline observes it through PIL. -/
structure PImage where
  width : Nat
  height : Nat
  mode : String
  infoHasExif : Bool
  exifItems : List (Nat × String)
  deriving DecidableEq

/-- PIL semantics: `Image.size` is documented as the 2-tuple
`(width, height)`, in that order. -/
def PImage.size (img : PImage) : Nat × Nat := (img.width, img.height)

/-- Python's `hex` builtin on a non-negative integer: a `0x` prefix
followed by lowercase hexadecimal digits. -/
def pyHex (n : Nat) : String :=
  "0x" ++ String.mk (Nat.toDigits 16 n)

/-! ## Compression-quality probe (wand collaborator)

`wand.image.Image(file=buffer).compression_quality` either yields an
integer or raises a `WandException`. -/

/-- Outcome of the wand compression-quality inspection. -/
inductive ProbeOutcome where
  | ok (quality : Nat)
  | wandError
  deriving DecidableEq

/-- The `compression_quality` value bound by the `try/except WandException`
block: the probed value on success, `None` on a `WandException`. -/
def probeQuality : ProbeOutcome → Option Nat
  | .ok q => some q
  | .wandError => none

/-- Encoding of Python `None`-or-int as a JSON value. -/
def optNum : Option Nat → JValue
  | some n => .num n
  | none => .null

/-! ## Metadata codec (`worker/message.py`)

Each `notify_*` helper builds a dict and hands it to
`producer.enqueue_message`.  We embed each helper as the dict it
enqueues. -/

/-- Embeds `notify_quality` (message.py lines 81-98): destructures
`height, width = img.size`, takes `filesize` from the fetched buffer's
byte count, probes the compression quality, and enqueues the quality
dict. -/
def notify_quality_message (img : PImage) (buffer : List Nat) (identifier : String)
    (probe : ProbeOutcome) : JMessage :=
  let height := img.size.1
  let width := img.size.2
  let filesize := buffer.length
  let compression_quality := probeQuality probe
  [("height", .num height),
   ("width", .num width),
   ("identifier", .str identifier),
   ("filesize", .num filesize),
   ("compression_quality", optNum compression_quality)]

/-- The EXIF dict `{hex(k): v for k, v in img.getexif().items()}`. -/
def exifDict (img : PImage) : List (String × String) :=
  img.exifItems.map (fun kv => (pyHex kv.1, kv.2))

/-- Embeds `notify_exif` (message.py lines 101-110): when `'exif'` is in
`img.info` and the hex-keyed tag dict is non-empty, the enqueued message;
otherwise nothing is enqueued. -/
def notify_exif_message (img : PImage) (identifier : String) : Option JMessage :=
  if img.infoHasExif then
    let exif := exifDict img
    if exif.isEmpty then none
    else some [("identifier", .str identifier), ("exif", .obj exif)]
  else none

/-- Embeds `notify_retry` (message.py lines 113-121): the enqueued retry
dict, exactly the keys the source writes. -/
def notify_retry_message (identifier source url : String) (attempts : Nat) : JMessage :=
  [("url", .str url),
   ("uuid", .str identifier),
   ("source", .str source),
   ("attempts", .num attempts)]

/-- Embeds `notify_404` (message.py lines 124-130): the enqueued link-rot
dict; `now` is the value of `datetime.utcnow().isoformat()` at call time. -/
def notify_404_message (identifier : String) (now : String) : JMessage :=
  [("identifier", .str identifier),
   ("timestamp", .str now)]

/-! ## Thumbnailing (`worker/image.py`, PIL collaborator)

`thumbnail_image` calls `img.thumbnail(size=settings.TARGET_RESOLUTION,
resample=Image.NEAREST)`, converts to RGB when necessary, and saves as
JPEG at quality 30.  `PIL.Image.thumbnail` is external; we embed its
documented algorithm (Pillow's `preserve_aspect_ratio`), with exact
rational arithmetic in place of Python floats. -/

/-- Pillow's `round_aspect(number, key)`: pick the floor or the ceiling
of `number`, whichever has the smaller key (the floor on a tie, since
Python's `min` keeps its first argument), but at least 1. -/
def round_aspect (number : ℚ) (key : ℤ → ℚ) : ℤ :=
  let f := ⌊number⌋
  let c := ⌈number⌉
  max (if key f ≤ key c then f else c) 1

/-- Pillow's `Image.thumbnail` size computation on an image of
dimensions `(width, height)` with requested size `(tx, ty)`: if the
image already fits inside the requested box the size is unchanged;
otherwise the larger-aspect side is pinned to the box and the other
side is rounded preserving the aspect ratio. -/
def pil_thumbnail_size (width height tx ty : Nat) : Nat × Nat :=
  if tx ≥ width ∧ ty ≥ height then (width, height)
  else
    let aspect : ℚ := (width : ℚ) / (height : ℚ)
    if (tx : ℚ) / (ty : ℚ) ≥ aspect then
      let x := round_aspect ((ty : ℚ) * aspect)
        (fun n => |aspect - (n : ℚ) / (ty : ℚ)|)
      (x.toNat, ty)
    else
      let y := round_aspect ((tx : ℚ) / aspect)
        (fun n => if n = 0 then 0 else |aspect - (tx : ℚ) / (n : ℚ)|)
      (tx, y.toNat)

/-- Modelled from the spec: the module `worker.settings` is not in the
source tree; the spec fixes the thumbnail envelope at a maximum
resolution of 640×480 (also the bound asserted by the repository's
`validate_thumbnail` test helper). -/
def TARGET_RESOLUTION : Nat × Nat := (640, 480)

/-- The re-encoded thumbnail artifact as handed to `img.save`: final
raster size, color mode, output format and JPEG quality factor. -/
structure Thumbnail where
  width : Nat
  height : Nat
  mode : String
  format : String
  quality : Nat
  deriving DecidableEq

/-- Embeds `thumbnail_image` (image.py lines 63-70): shrink in place to
`TARGET_RESOLUTION`, convert to `RGB` when the mode differs, save as
JPEG with `quality=30`. -/
def thumbnail_image (img : PImage) : Thumbnail :=
  let size := pil_thumbnail_size img.width img.height
    TARGET_RESOLUTION.1 TARGET_RESOLUTION.2
  let mode := if img.mode ≠ "RGB" then "RGB" else img.mode
  { width := size.1, height := size.2, mode := mode,
    format := "JPEG", quality := 30 }

/-! ## The pipeline orchestrator (`worker/image.py`)

`process_image` is embedded as a function from the outcomes of its
collaborators at their single call sites to the ordered trace of
collaborator calls it performs, together with whether it returns or
raises.  The `async with semaphore` block and executor offloads order
the steps but add no observable effects of their own. -/

/-- Outcome of `session.get(url, source)`: the rate-limited client
raises `ServerDisconnectedError`, returns a falsy sentinel when no rate
token was granted, or returns a response with a status and a body. -/
inductive FetchOutcome where
  | disconnected
  | noToken
  | response (status : Nat) (body : List Nat)
  deriving DecidableEq

/-- Outcome of `Image.open(buffer)` on the fetched bytes: a decoded
image, or an `UnidentifiedImageError` for a corrupt payload. -/
inductive DecodeOutcome where
  | ok (img : PImage)
  | unidentified
  deriving DecidableEq

/-- The error codes `process_image` hands to `stats.record_error`. -/
inductive ErrCode where
  | serverDisconnected
  | noRateToken
  | httpStatus (status : Nat)
  | unidentifiedImageError
  deriving DecidableEq

/-- One collaborator call made by the pipeline, in program order:
a stats record, a metadata-producer notification (image.py's
`notify_quality` calls `notify_image_quality_update(height, width,
identifier, filesize, compression_quality)` positionally, its
`notify_exif` calls `notify_exif_update(identifier, exif)`), or the
persister invocation. -/
inductive Effect where
  | recordError (source : String) (code : ErrCode)
  | recordSuccess (source : String)
  | qualityUpdate (height width : Nat) (identifier : String)
      (filesize : Nat) (compressionQuality : Option Nat)
  | exifUpdate (identifier : String) (exif : List (String × String))
  | persistCall (identifier : String) (thumb : Thumbnail)
  deriving DecidableEq

/-- Whether a `process_image` invocation returns normally or lets an
exception escape to its caller. -/
inductive Outcome where
  | returned
  | raised (exc : String)
  deriving DecidableEq

/-- The behaviour of the collaborators at their call sites in one
`process_image` invocation: the fetch outcome, the decode outcome on
the fetched buffer, the wand probe outcome on that buffer, and whether
the persister raises. -/
structure Env where
  fetch : FetchOutcome
  decode : DecodeOutcome
  probe : ProbeOutcome
  persistExc : Option String
  deriving DecidableEq

/-- Embeds image.py's `notify_quality` (lines 73-84): destructures
`height, width = img.size`, measures the buffer, probes the
compression quality, and calls
`notify_image_quality_update(height, width, identifier, filesize,
compression_quality)` with those positional arguments. -/
def notify_quality_effect (img : PImage) (buffer : List Nat) (identifier : String)
    (probe : ProbeOutcome) : Effect :=
  .qualityUpdate img.size.1 img.size.2 identifier buffer.length (probeQuality probe)

/-- Embeds image.py's `notify_exif` (lines 87-91): when `'exif'` is in
`img.info` and the hex-keyed tag dict is non-empty, one
`notify_exif_update(identifier, exif)` call; otherwise none. -/
def notify_exif_effect (img : PImage) (identifier : String) : List Effect :=
  if img.infoHasExif then
    let exif := exifDict img
    if exif.isEmpty then [] else [.exifUpdate identifier exif]
  else []

/-- Embeds `process_image` (image.py lines 12-60).  Control flow of the
source: a `ServerDisconnectedError` from the fetch records
`ServerDisconnected` and returns; a falsy response records
`NoRateToken` and returns; `status >= 400` records the numeric status
and returns (the function has no not-found sink parameter, so nothing
else happens on a 404); a decode `UnidentifiedImageError` records that
code and returns; on a successful decode the metadata notifications
fire only when a metadata producer was supplied, then the thumbnail is
produced and the persister called — a persister exception propagates —
and finally `record_success` fires. -/
def process_image (identifier source : String) (hasMetadataProducer : Bool)
    (env : Env) : List Effect × Outcome :=
  match env.fetch with
  | .disconnected => ([.recordError source .serverDisconnected], .returned)
  | .noToken => ([.recordError source .noRateToken], .returned)
  | .response status body =>
    if status ≥ 400 then
      ([.recordError source (.httpStatus status)], .returned)
    else
      match env.decode with
      | .unidentified => ([.recordError source .unidentifiedImageError], .returned)
      | .ok img =>
        let metaEffects :=
          if hasMetadataProducer then
            notify_quality_effect img body identifier env.probe
              :: notify_exif_effect img identifier
          else []
        let thumb := thumbnail_image img
        match env.persistExc with
        | some exc => (metaEffects, .raised exc)
        | none =>
          (metaEffects ++ [.persistCall identifier thumb, .recordSuccess source],
           .returned)

/-- Whether a pipeline effect is a stats record (`record_error` or
`record_success`). -/
def Effect.isStatRecord : Effect → Bool
  | .recordError _ _ => true
  | .recordSuccess _ => true
  | _ => false

/-! ## The batching publisher (`worker/message.py`, `AsyncProducer.listen`)

One flush cycle of `listen`'s `while True` body is embedded.  The
external pykafka client is modelled by `client msg k : Bool`, true when
the `(k+1)`-th `producer.produce` call for `msg` would raise
`BufferError`.  The only suspension points inside a flush are the
back-off `await asyncio.sleep(5)` calls; other tasks can enqueue only
there, so concurrent enqueues are modelled as `arrivals`, the list of
message batches appended to the live queue at successive yields
(`producer.poll(1)` is synchronous and yields nothing). -/

/-- Serialized messages as stored in `self._messages`. -/
abbrev Msg := String

/-- Embeds the inner produce loop of `listen` (message.py lines 52-65)
for one message:

    produce_attempts = 0
    while produce_attempts < 10:
        try:
            self.producer.produce(self.topic_name, msg)
        except BufferError:
            produce_attempts += 1
            self.producer.poll(1)
            await asyncio.sleep(5)
        break

The `break` sits inside the `while` body after the `try/except`, so it
executes unconditionally once the first iteration's `try` statement
completes: on success the message is delivered and the loop exits; on a
`BufferError` the handler increments the counter, polls, sleeps (one
yield to other tasks) and the loop still exits.  Result fields:
`(delivered, attempts, yields)`. -/
def produceLoop (client : Msg → Nat → Bool) (m : Msg) : Bool × Nat × Nat :=
  if 0 < 10 then
    if client m 0 then (false, 1, 1) else (true, 0, 0)
  else (false, 0, 0)

/-- What one flush cycle of `listen` did: the messages successfully
handed to `producer.produce` in order, every message iterated by the
`for` loop with its attempt count in order, the live queue contents
observed at each back-off yield, the number of yields, and the queue
contents after `self._messages = []` runs. -/
structure FlushResult where
  published : List Msg
  attempts : List (Msg × Nat)
  snapshots : List (List Msg)
  yields : Nat
  finalQueue : List Msg
  deriving DecidableEq

/-- Embeds the `for msg in self._messages` loop of `listen` (message.py
lines 51-67) followed by `self._messages = []`.  Python's `for`
iterates the live list by index, so messages appended during a back-off
yield are visited by the same loop; `done` is the already-iterated
prefix (which stays in the live list until the final clear).  When a
yield happens the next batch of concurrent enqueues (`arrivals.headD
[]`) is appended to the live queue. -/
def flushGo (client : Msg → Nat → Bool) (done pending : List Msg)
    (arrivals : List (List Msg)) : FlushResult :=
  match pending with
  | [] => ⟨[], [], [], 0, []⟩
  | m :: rest =>
    let r := produceLoop client m
    if r.2.2 = 0 then
      let res := flushGo client (done ++ [m]) rest arrivals
      ⟨(if r.1 then [m] else []) ++ res.published,
       (m, r.2.1) :: res.attempts,
       res.snapshots, res.yields, res.finalQueue⟩
    else
      let arr := arrivals.headD []
      let res := flushGo client (done ++ [m]) (rest ++ arr) arrivals.tail
      ⟨(if r.1 then [m] else []) ++ res.published,
       (m, r.2.1) :: res.attempts,
       (done ++ m :: (rest ++ arr)) :: res.snapshots,
       res.yields + 1, res.finalQueue⟩
  termination_by (arrivals.length, pending.length)
  decreasing_by
  · exact Prod.Lex.right _ (by simp)
  · rcases arrivals with _ | ⟨a, as⟩
    · exact Prod.Lex.right _ (by simp)
    · exact Prod.Lex.left _ _ (by simp)

/-- One flush cycle of `listen` on a non-empty queue `q`: run the
`for` loop over the live queue starting from `q`, then clear
`self._messages`. -/
def flushCycle (client : Msg → Nat → Bool) (q : List Msg)
    (arrivals : List (List Msg)) : FlushResult :=
  flushGo client [] q arrivals

/-! ## Inbound message parsing (`worker/message.py`, `parse_message`)

`parse_message` runs `json.loads(str(msg.value(), 'utf-8'))` inside a
`try` whose only handler is `except json.JSONDecodeError`.  The byte
decoding `str(bytes, 'utf-8')` is embedded by a full RFC 3629 UTF-8
decoder (Python raises `UnicodeDecodeError` exactly on invalid UTF-8,
which that handler does not catch); `json.loads` on the decoded text is
the external collaborator `loads`, which either returns a value or
raises `json.JSONDecodeError`. -/

/-- Strict UTF-8 decoding of a byte list into code points, per RFC 3629
(rejecting overlong forms, surrogates and code points above U+10FFFF,
as Python's `str(b, 'utf-8')` does): `none` exactly when Python raises
`UnicodeDecodeError`. -/
def utf8Decode : List Nat → Option (List Nat)
  | [] => some []
  | b0 :: bs =>
    if b0 ≤ 0x7F then
      (utf8Decode bs).map (b0 :: ·)
    else if 0xC2 ≤ b0 ∧ b0 ≤ 0xDF then
      match bs with
      | b1 :: bs1 =>
        if 0x80 ≤ b1 ∧ b1 ≤ 0xBF then
          (utf8Decode bs1).map (((b0 - 0xC0) * 0x40 + (b1 - 0x80)) :: ·)
        else none
      | [] => none
    else if 0xE0 ≤ b0 ∧ b0 ≤ 0xEF then
      match bs with
      | b1 :: b2 :: bs2 =>
        let lo1 := if b0 = 0xE0 then 0xA0 else 0x80
        let hi1 := if b0 = 0xED then 0x9F else 0xBF
        if (lo1 ≤ b1 ∧ b1 ≤ hi1) ∧ (0x80 ≤ b2 ∧ b2 ≤ 0xBF) then
          (utf8Decode bs2).map
            (((b0 - 0xE0) * 0x1000 + (b1 - 0x80) * 0x40 + (b2 - 0x80)) :: ·)
        else none
      | _ => none
    else if 0xF0 ≤ b0 ∧ b0 ≤ 0xF4 then
      match bs with
      | b1 :: b2 :: b3 :: bs3 =>
        let lo1 := if b0 = 0xF0 then 0x90 else 0x80
        let hi1 := if b0 = 0xF4 then 0x8F else 0xBF
        if (lo1 ≤ b1 ∧ b1 ≤ hi1) ∧ (0x80 ≤ b2 ∧ b2 ≤ 0xBF)
            ∧ (0x80 ≤ b3 ∧ b3 ≤ 0xBF) then
          (utf8Decode bs3).map
            (((b0 - 0xF0) * 0x40000 + (b1 - 0x80) * 0x1000
              + (b2 - 0x80) * 0x40 + (b3 - 0x80)) :: ·)
        else none
      | _ => none
    else none

/-- Outcome of the external `json.loads` on a decoded text (given as
its code points): a JSON value, or a raised `json.JSONDecodeError`. -/
inductive LoadsOutcome where
  | value (v : JValue)
  | jsonDecodeError
  deriving DecidableEq

/-- Result of a Python call: a returned value or an uncaught exception. -/
inductive PyResult (α : Type) where
  | ok (a : α)
  | exc (e : String)
  deriving DecidableEq

/-- Embeds `parse_message` (message.py lines 72-78): inside the `try`,
the payload bytes are decoded as UTF-8 (an invalid payload raises
`UnicodeDecodeError`, which `except json.JSONDecodeError` does not
catch, so it escapes) and handed to `json.loads`; a
`json.JSONDecodeError` is caught and `decoded = None` is returned. -/
def parse_message (loads : List Nat → LoadsOutcome) (value : List Nat) :
    PyResult (Option JValue) :=
  match utf8Decode value with
  | none => .exc "UnicodeDecodeError"
  | some text =>
    match loads text with
    | .value v => .ok (some v)
    | .jsonDecodeError => .ok none

/-! ## Theorems -/

/-- C3: evaluated at the repository's own 404 test input (HTTP status
404, identifier `4bbfe191-1cca-4b9e-aff0-1d3044ef3f2d`, metadata sink
supplied), `process_image` records the numeric error code 404 and
performs no other collaborator call whatsoever — in particular it emits
no `LinkRotNotice`.  The codec `notify_404` exists in the source but
`process_image` has no not-found-sink parameter and never calls it,
even though the repository's test `test_handled_404s` passes
`rot_producer=...` to `process_image` and asserts that exactly one
link-rot notice carrying the identifier was produced. -/
theorem process_image_404_records_status_but_no_link_rot :
    process_image "4bbfe191-1cca-4b9e-aff0-1d3044ef3f2d" "example" true
        ⟨.response 404 [1, 2, 3], .unidentified, .wandError, none⟩ =
      ([.recordError "example" (.httpStatus 404)], .returned) := by
  decide

/-- C4: counterexample to "never raises for every behaviour of the
collaborators": with a successful fetch and decode, a persister that
raises makes `process_image` raise to its caller (the persister call is
not wrapped in any `try`). -/
theorem process_image_persister_exception_escapes :
    (process_image "id-1" "example" false
        ⟨.response 200 [1], .ok ⟨2, 2, "RGB", false, []⟩, .ok 80,
         some "PersistFailure"⟩).2 = .raised "PersistFailure" := by
  decide

/-- C4 (amended): for every behaviour of the fetch client within its
declared outcomes, every decode and probe outcome, and any sink
configuration, `process_image` with a non-raising persister returns
normally without raising, and its trace always contains a stats record
(`record_error` on each failure path, `record_success` on success). -/
theorem process_image_returns_and_records (identifier source : String)
    (hasProducer : Bool) (fetch : FetchOutcome) (decode : DecodeOutcome)
    (probe : ProbeOutcome) :
    (process_image identifier source hasProducer ⟨fetch, decode, probe, none⟩).2
        = .returned
    ∧ (process_image identifier source hasProducer
        ⟨fetch, decode, probe, none⟩).1.any Effect.isStatRecord = true := by
  cases fetch with
  | disconnected => simp [process_image, Effect.isStatRecord]
  | noToken => simp [process_image, Effect.isStatRecord]
  | response status body =>
    by_cases hstatus : status ≥ 400
    · simp [process_image, hstatus, Effect.isStatRecord]
    · cases decode with
      | unidentified => simp [process_image, hstatus, Effect.isStatRecord]
      | ok img => simp [process_image, hstatus, Effect.isStatRecord]

/-- C5: counterexample: the retry notice built by `notify_retry` does
not carry a field named `identifier`; the identifier travels under the
field name `uuid` instead. -/
theorem notify_retry_message_lacks_identifier_field :
    List.lookup "identifier" (notify_retry_message "id-1" "flickr" "u" 1) = none
    ∧ List.lookup "uuid" (notify_retry_message "id-1" "flickr" "u" 1)
        = some (.str "id-1") := by
  decide

/-- C5 (amended): every emitted metadata message carries the task
identifier — the quality, EXIF and link-rot messages under the field
name `identifier`, the retry notice under the field name `uuid` (and
with no `identifier` field) — and an absent compression quality is
encoded as JSON `null`, never as a placeholder string. -/
theorem metadata_messages_identifier_fields (img : PImage) (buffer : List Nat)
    (identifier source url now : String) (attempts : Nat) (probe : ProbeOutcome) :
    List.lookup "identifier" (notify_quality_message img buffer identifier probe)
        = some (.str identifier)
    ∧ (notify_exif_message img identifier = none
        ∨ notify_exif_message img identifier =
            some [("identifier", .str identifier), ("exif", .obj (exifDict img))])
    ∧ List.lookup "identifier" (notify_404_message identifier now)
        = some (.str identifier)
    ∧ List.lookup "uuid" (notify_retry_message identifier source url attempts)
        = some (.str identifier)
    ∧ List.lookup "identifier" (notify_retry_message identifier source url attempts)
        = none
    ∧ List.lookup "compression_quality"
        (notify_quality_message img buffer identifier .wandError) = some .null := by
  refine ⟨?_, ?_, ?_, ?_, ?_, ?_⟩
  · simp [notify_quality_message, List.lookup]
  · unfold notify_exif_message
    by_cases hinfo : img.infoHasExif
    · by_cases hempty : (exifDict img).isEmpty
      · simp [hinfo, hempty]
      · simp [hinfo, hempty]
    · simp [hinfo]
  · simp [notify_404_message, List.lookup]
  · simp [notify_retry_message, List.lookup]
  · simp [notify_retry_message, List.lookup]
  · simp [notify_quality_message, probeQuality, optNum, List.lookup]

/-- C6: evaluated at the failing input, a decoded image of width 100 and
height 50: the enqueued quality message's `height` field is 100 — the
image's *width* — and its `width` field is 50 — the image's *height* —
because `notify_quality` destructures `height, width = img.size` while
PIL's `Image.size` is `(width, height)`.  The `filesize` field does
equal the fetched byte count and every field is non-null. -/
theorem notify_quality_message_swaps_dimensions :
    notify_quality_message ⟨100, 50, "RGB", false, []⟩ [0, 1, 2] "id-1" (.ok 85) =
      [("height", .num 100), ("width", .num 50), ("identifier", .str "id-1"),
       ("filesize", .num 3), ("compression_quality", .num 85)] := by
  decide

/-- C8: for every task whose fetched payload fails to decode
(`UnidentifiedImageError`), and any status below 400, probe behaviour,
persister behaviour and sink configuration, the whole trace of
`process_image` is a single `record_error` with code
`UnidentifiedImageError`: no metadata event, no thumbnail, no persist,
and a normal return. -/
theorem process_image_unidentified_single_error (identifier source : String)
    (hasProducer : Bool) (status : Nat) (body : List Nat) (probe : ProbeOutcome)
    (persistExc : Option String) (hstatus : status < 400) :
    process_image identifier source hasProducer
        ⟨.response status body, .unidentified, probe, persistExc⟩ =
      ([.recordError source .unidentifiedImageError], .returned) := by
  simp [process_image, Nat.not_le.mpr hstatus]

/-- Witness for C8 at status 200 with a configured sink. -/
theorem process_image_unidentified_single_error_witness :
    (200 : Nat) < 400
    ∧ process_image "id-1" "example" true
        ⟨.response 200 [9, 9], .unidentified, .wandError, none⟩ =
      ([.recordError "example" .unidentifiedImageError], .returned) :=
  ⟨by decide,
   process_image_unidentified_single_error "id-1" "example" true 200 [9, 9]
     .wandError none (by decide)⟩

/-- C9: for every successfully decoded image processed with a metadata
sink, a failing compression-quality probe (a `WandException` from the
wand inspection) yields a quality update whose compression quality is
absent (`None`), and the task still completes normally: the thumbnail
is produced, the persister is called and success is recorded. -/
theorem process_image_probe_failure_nonfatal (identifier source : String)
    (status : Nat) (body : List Nat) (img : PImage) (hstatus : status < 400) :
    (process_image identifier source true
        ⟨.response status body, .ok img, .wandError, none⟩).1 =
      .qualityUpdate img.size.1 img.size.2 identifier body.length none
        :: notify_exif_effect img identifier
        ++ [.persistCall identifier (thumbnail_image img), .recordSuccess source]
    ∧ (process_image identifier source true
        ⟨.response status body, .ok img, .wandError, none⟩).2 = .returned := by
  simp [process_image, Nat.not_le.mpr hstatus, notify_quality_effect, probeQuality]

/-- Witness for C9 at a concrete decoded image. -/
theorem process_image_probe_failure_nonfatal_witness :
    (200 : Nat) < 400
    ∧ ((process_image "id-1" "example" true
          ⟨.response 200 [7], .ok ⟨2, 2, "RGB", false, []⟩, .wandError, none⟩).1 =
        .qualityUpdate (PImage.size ⟨2, 2, "RGB", false, []⟩).1
            (PImage.size ⟨2, 2, "RGB", false, []⟩).2 "id-1" [7].length none
          :: notify_exif_effect ⟨2, 2, "RGB", false, []⟩ "id-1"
          ++ [.persistCall "id-1" (thumbnail_image ⟨2, 2, "RGB", false, []⟩),
              .recordSuccess "example"]
      ∧ (process_image "id-1" "example" true
          ⟨.response 200 [7], .ok ⟨2, 2, "RGB", false, []⟩, .wandError, none⟩).2
          = .returned) :=
  ⟨by decide,
   process_image_probe_failure_nonfatal "id-1" "example" 200 [7]
     ⟨2, 2, "RGB", false, []⟩ (by decide)⟩

/-- C10: counterexample to totality: a broker message whose payload is
the single byte `0xFF` is not valid UTF-8, so `str(msg.value(),
'utf-8')` raises `UnicodeDecodeError`, which the `except
json.JSONDecodeError` handler does not catch — `parse_message` raises
instead of returning. -/
theorem parse_message_invalid_utf8_raises :
    parse_message (fun _ => .jsonDecodeError) [0xFF] = .exc "UnicodeDecodeError" := by
  decide

/-- C10 (amended): for every message whose payload is valid UTF-8,
`parse_message` is total: it returns the value produced by `json.loads`
on the decoded text, and returns `None` when `json.loads` raises
`json.JSONDecodeError`; no JSON decode error ever reaches the caller. -/
theorem parse_message_total_on_utf8 (loads : List Nat → LoadsOutcome)
    (value text : List Nat) (hvalid : utf8Decode value = some text) :
    parse_message loads value =
      match loads text with
      | .value v => .ok (some v)
      | .jsonDecodeError => .ok none := by
  simp [parse_message, hvalid]

/-- Witness for C10's amended theorem on the ASCII payload `[1]`. -/
theorem parse_message_total_on_utf8_witness :
    utf8Decode [91, 49, 93] = some [91, 49, 93]
    ∧ parse_message (fun _ => .jsonDecodeError) [91, 49, 93] = .ok none :=
  ⟨by decide,
   parse_message_total_on_utf8 (fun _ => .jsonDecodeError) [91, 49, 93]
     [91, 49, 93] (by decide)⟩

/-- Helper: the `for` loop of one flush cycle visits, in order, every
message of the starting queue and every message appended at one of its
yields, attempting each exactly once, and the queue is empty after the
final `self._messages = []`. -/
theorem flushGo_attempts_and_clear (client : Msg → Nat → Bool) :
    ∀ (arrivals : List (List Msg)) (pending done : List Msg),
      (flushGo client done pending arrivals).finalQueue = []
      ∧ (flushGo client done pending arrivals).attempts.map Prod.fst =
          pending ++
            (List.take (flushGo client done pending arrivals).yields arrivals).flatten := by
  intro arrivals
  induction arrivals with
  | nil =>
    intro pending
    induction pending with
    | nil => intro done; simp [flushGo]
    | cons m rest ih =>
      intro done
      rw [flushGo]
      cases hc : client m 0 <;>
        simpa [produceLoop, hc] using ih (done ++ [m])
  | cons a as ihArr =>
    intro pending
    induction pending with
    | nil => intro done; simp [flushGo]
    | cons m rest ihPend =>
      intro done
      rw [flushGo]
      cases hc : client m 0
      · simpa [produceLoop, hc] using ihPend (done ++ [m])
      · simpa [produceLoop, hc] using ihArr (rest ++ a) (done ++ [m])

/-- C1 (amended): the flush loop does not snapshot-and-clear at flush
start: it iterates the live queue and clears it only after the batch
completes.  Consequently the queue is empty at the *end* of every flush
cycle (nothing is carried into the next batch), and every event —
those present when the flush began and every event enqueued at a
back-off yield while the flush was in progress — is attempted exactly
once, in enqueue order, within the batch being flushed; no event is
lost. -/
theorem flushCycle_drains_live_queue (client : Msg → Nat → Bool)
    (q : List Msg) (arrivals : List (List Msg)) :
    (flushCycle client q arrivals).finalQueue = []
    ∧ (flushCycle client q arrivals).attempts.map Prod.fst =
        q ++ (List.take (flushCycle client q arrivals).yields arrivals).flatten :=
  flushGo_attempts_and_clear client arrivals q []

/-- C1: counterexample to atomic snapshot-and-clear.  The queue holds
`"a"`; the client reports buffer exhaustion for `"a"` and accepts
`"b"`; one event `"b"` is enqueued by another task during the flush's
back-off yield.  Then `"b"` is published within the very batch being
flushed (`published = ["b"]`), the live queue at that mid-flush yield
still holds both events (`snapshots = [["a", "b"]]`, not empty), and
the cleared queue carries nothing into the next batch (`finalQueue =
[]`), so `"b"` never appears in a next batch — contrary to the claimed
snapshot-and-clear at flush start. -/
theorem flushCycle_not_atomic_counterexample :
    flushCycle (fun m _ => m == "a") ["a"] [["b"]] =
      { published := ["b"], attempts := [("a", 1), ("b", 0)],
        snapshots := [["a", "b"]], yields := 1, finalQueue := [] } := by
  simp [flushCycle, flushGo, produceLoop]

/-- C2: the retry loop of `listen` never retries.  Evaluated at the
failing input — a queue holding one message `"m"` and a publish client
that raises `BufferError` on the first produce call for `"m"` and would
accept every later call — the inner `while produce_attempts < 10` loop
performs a single attempt and the unconditional `break` abandons the
message: nothing is published and the recorded attempt count is 1, not
the claimed delivery after a back-off retry (nor abandonment only
after 10 attempts). -/
theorem produce_abandoned_after_one_attempt :
    produceLoop (fun _ k => k == 0) "m" = (false, 1, 1)
    ∧ flushCycle (fun _ k => k == 0) ["m"] [] =
      { published := [], attempts := [("m", 1)], snapshots := [["m"]],
        yields := 1, finalQueue := [] } := by
  exact ⟨rfl, by simp [flushCycle, flushGo, produceLoop]⟩

/-- Helper: `round_aspect` never exceeds an integer bound that its
input respects (whatever the tie-breaking key), provided the bound is
at least 1. -/
theorem round_aspect_le (q : ℚ) (key : ℤ → ℚ) (n : ℤ)
    (hq : q ≤ (n : ℚ)) (hn : 1 ≤ n) :
    round_aspect q key ≤ n := by
  unfold round_aspect
  have hc : ⌈q⌉ ≤ n := Int.ceil_le.mpr hq
  have hf : ⌊q⌋ ≤ n := le_trans (Int.floor_le_ceil q) hc
  exact max_le (by split <;> assumption) hn

/-- Helper: the thumbnail size computation never exceeds the requested
box in either coordinate. -/
theorem pil_thumbnail_size_le (w h tx ty : Nat) (hw : 1 ≤ w) (hh : 1 ≤ h)
    (htx : 1 ≤ tx) (hty : 1 ≤ ty) :
    (pil_thumbnail_size w h tx ty).1 ≤ tx ∧ (pil_thumbnail_size w h tx ty).2 ≤ ty := by
  have hh0 : (0 : ℚ) < (h : ℚ) := by exact_mod_cast hh
  have hty0 : (0 : ℚ) < (ty : ℚ) := by exact_mod_cast hty
  have hw0 : (0 : ℚ) < (w : ℚ) := by exact_mod_cast hw
  unfold pil_thumbnail_size
  split
  · next hfit => exact ⟨hfit.1, hfit.2⟩
  · next hnofit =>
    dsimp only
    split
    · next hge =>
      refine ⟨?_, le_refl ty⟩
      have hq : (ty : ℚ) * ((w : ℚ) / (h : ℚ)) ≤ (tx : ℚ) := by
        calc (ty : ℚ) * ((w : ℚ) / (h : ℚ))
            ≤ (ty : ℚ) * ((tx : ℚ) / (ty : ℚ)) :=
              mul_le_mul_of_nonneg_left hge (le_of_lt hty0)
          _ = (tx : ℚ) := by field_simp
      have := round_aspect_le ((ty : ℚ) * ((w : ℚ) / (h : ℚ)))
        (fun n => |(w : ℚ) / (h : ℚ) - (n : ℚ) / (ty : ℚ)|) (tx : ℤ)
        (by exact_mod_cast hq) (by exact_mod_cast htx)
      exact Int.toNat_le.mpr this
    · next hlt =>
      refine ⟨le_refl tx, ?_⟩
      have hlt' : (tx : ℚ) / (ty : ℚ) < (w : ℚ) / (h : ℚ) := lt_of_not_ge hlt
      have hq : (tx : ℚ) / ((w : ℚ) / (h : ℚ)) ≤ (ty : ℚ) := by
        rw [div_div_eq_mul_div, div_le_iff₀ hw0]
        have := (div_lt_div_iff₀ hty0 hh0).mp hlt'
        linarith
      have := round_aspect_le ((tx : ℚ) / ((w : ℚ) / (h : ℚ)))
        (fun n => if n = 0 then 0 else |(w : ℚ) / (h : ℚ) - (tx : ℚ) / (n : ℚ)|) (ty : ℤ)
        (by exact_mod_cast hq) (by exact_mod_cast hty)
      exact Int.toNat_le.mpr this

/-- Helper: an image already inside the requested box keeps its size. -/
theorem pil_thumbnail_size_passthrough (w h tx ty : Nat) (h1 : w ≤ tx) (h2 : h ≤ ty) :
    pil_thumbnail_size w h tx ty = (w, h) := by
  unfold pil_thumbnail_size
  rw [if_pos ⟨h1, h2⟩]

/-- C7: for every decoded image (of positive dimensions), the thumbnail
produced by `thumbnail_image` never exceeds the 640×480 envelope in
either dimension; an input already within the envelope passes through
unscaled; and the output is re-encoded in the single fixed color model
RGB, as JPEG, at the fixed low quality factor 30. -/
theorem thumbnail_image_bounded (img : PImage)
    (hw : 1 ≤ img.width) (hh : 1 ≤ img.height) :
    (thumbnail_image img).width ≤ 640 ∧ (thumbnail_image img).height ≤ 480
    ∧ (img.width ≤ 640 → img.height ≤ 480 →
        (thumbnail_image img).width = img.width
        ∧ (thumbnail_image img).height = img.height)
    ∧ (thumbnail_image img).mode = "RGB"
    ∧ (thumbnail_image img).format = "JPEG"
    ∧ (thumbnail_image img).quality = 30 := by
  have hb := pil_thumbnail_size_le img.width img.height 640 480 hw hh
    (by decide) (by decide)
  refine ⟨?_, ?_, ?_, ?_, rfl, rfl⟩
  · simpa [thumbnail_image, TARGET_RESOLUTION] using hb.1
  · simpa [thumbnail_image, TARGET_RESOLUTION] using hb.2
  · intro h1 h2
    have := pil_thumbnail_size_passthrough img.width img.height 640 480 h1 h2
    constructor <;> simp [thumbnail_image, TARGET_RESOLUTION, this]
  · by_cases hm : img.mode = "RGB" <;> simp [thumbnail_image, hm]

/-- Witness for C7 at a concrete 100×50 CMYK image. -/
theorem thumbnail_image_bounded_witness :
    1 ≤ (PImage.mk 100 50 "CMYK" false []).width
    ∧ 1 ≤ (PImage.mk 100 50 "CMYK" false []).height
    ∧ ((thumbnail_image (PImage.mk 100 50 "CMYK" false [])).width ≤ 640
      ∧ (thumbnail_image (PImage.mk 100 50 "CMYK" false [])).height ≤ 480
      ∧ ((PImage.mk 100 50 "CMYK" false []).width ≤ 640 →
          (PImage.mk 100 50 "CMYK" false []).height ≤ 480 →
          (thumbnail_image (PImage.mk 100 50 "CMYK" false [])).width
              = (PImage.mk 100 50 "CMYK" false []).width
          ∧ (thumbnail_image (PImage.mk 100 50 "CMYK" false [])).height
              = (PImage.mk 100 50 "CMYK" false []).height)
      ∧ (thumbnail_image (PImage.mk 100 50 "CMYK" false [])).mode = "RGB"
      ∧ (thumbnail_image (PImage.mk 100 50 "CMYK" false [])).format = "JPEG"
      ∧ (thumbnail_image (PImage.mk 100 50 "CMYK" false [])).quality = 30) :=
  ⟨by decide, by decide,
   thumbnail_image_bounded (PImage.mk 100 50 "CMYK" false []) (by decide) (by decide)⟩

end ImageCrawler
